import Mathlib

/-!
Shallow embedding of the Tubely media-upload handlers
(learn-file-storage-s3-golang-starter).

Pure computations (aspect classification, stream selection, base64url
key derivation, locator encode/decode) are translated directly from the
Go source.  Stateful handler code is embedded as a function from an
environment of oracle results (one per fallible external call: auth,
database, file system, ffprobe/ffmpeg, S3) to a result carrying the HTTP
status and an ordered trace of the side effects the handler performed.
Go's float64 arithmetic in the aspect classifier is modelled with exact
rationals; Go ints that may be negative are modelled with Int; byte
slices are lists of naturals below 256.
-/

/-- One entry of the ffprobe `streams` JSON array
(source: `ffprobeOutput` in handler_upload_video.go). -/
structure StreamInfo where
  codecType : String
  width : Int
  height : Int
deriving DecidableEq

/-- The stream-selection loop of `getVideoAspectRatio`
(handler_upload_video.go lines 54-61): `width`/`height` start at the Go
zero value and take the dimensions of the first stream whose
`codec_type` is `"video"`, then the loop breaks. -/
def findFirstVideoLoop : List StreamInfo → Int × Int
  | [] => (0, 0)
  | s :: rest =>
      if s.codecType = "video" then (s.width, s.height)
      else findFirstVideoLoop rest

/-- The aspect-ratio banding of `getVideoAspectRatio`
(handler_upload_video.go lines 67-81), with float64 modelled as ℚ. -/
def classifyAspect (width height : Int) : String :=
  let ratio : ℚ := (width : ℚ) / (height : ℚ)
  let tolerance : ℚ := 5 / 100
  let landscapeTarget : ℚ := 16 / 9
  let portraitTarget : ℚ := 9 / 16
  if |ratio - landscapeTarget| ≤ landscapeTarget * tolerance then "landscape"
  else if |ratio - portraitTarget| ≤ portraitTarget * tolerance then "portrait"
  else "other"

/-- Pure core of `getVideoAspectRatio` (handler_upload_video.go lines
48-81), taking the parsed ffprobe stream list.  The invocation of the
external tool and the JSON parse are oracles of the handler environment
below.  The zero test is Go's `width == 0 || height == 0`. -/
def getVideoAspectRatio (streams : List StreamInfo) : Except String String :=
  let wh := findFirstVideoLoop streams
  if wh.1 = 0 ∨ wh.2 = 0 then Except.error "no video stream found"
  else Except.ok (classifyAspect wh.1 wh.2)

/-- Output-path derivation of `processVideoForFastStart`
(handler_upload_video.go line 85): `outputPath := filePath + ".processing"`. -/
def processedOutputPath (filePath : String) : String :=
  filePath ++ ".processing"

/-- The base64url alphabet (RFC 4648 §5), as used by Go's
`base64.RawURLEncoding`. -/
def b64urlAlphabet : List Char :=
  ['A','B','C','D','E','F','G','H','I','J','K','L','M',
   'N','O','P','Q','R','S','T','U','V','W','X','Y','Z',
   'a','b','c','d','e','f','g','h','i','j','k','l','m',
   'n','o','p','q','r','s','t','u','v','w','x','y','z',
   '0','1','2','3','4','5','6','7','8','9','-','_']

/-- Character for one six-bit group. -/
def b64urlChar (n : Nat) : Char := b64urlAlphabet.getD n 'A'

/-- Go's `base64.RawURLEncoding.EncodeToString` on a byte slice
(no padding): three input bytes become four alphabet characters, a
two-byte tail becomes three characters, a one-byte tail two. -/
def base64RawURLEncode : List Nat → List Char
  | [] => []
  | [a] => [b64urlChar (a / 4), b64urlChar (a % 4 * 16)]
  | [a, b] =>
      [b64urlChar (a / 4), b64urlChar (a % 4 * 16 + b / 16),
       b64urlChar (b % 16 * 4)]
  | a :: b :: c :: rest =>
      b64urlChar (a / 4) :: b64urlChar (a % 4 * 16 + b / 16) ::
      b64urlChar (b % 16 * 4 + c / 64) :: b64urlChar (c % 64) ::
      base64RawURLEncode rest

/-- Six-bit value of an alphabet character (left inverse used to show
the encoding is injective). -/
def sextet (c : Char) : Nat := b64urlAlphabet.indexOf c

/-- Decoder for the unpadded base64url text produced above. -/
def base64RawURLDecode : List Char → List Nat
  | [] => []
  | [_] => []
  | [c0, c1] => [sextet c0 * 4 + sextet c1 / 16]
  | [c0, c1, c2] =>
      [sextet c0 * 4 + sextet c1 / 16, sextet c1 % 16 * 16 + sextet c2 / 4]
  | c0 :: c1 :: c2 :: c3 :: rest =>
      (sextet c0 * 4 + sextet c1 / 16) ::
      (sextet c1 % 16 * 16 + sextet c2 / 4) ::
      (sextet c2 % 4 * 64 + sextet c3) ::
      base64RawURLDecode rest

/-- Object-key derivation of `handlerUploadVideo`
(handler_upload_video.go lines 259-267):
`objectKey := fmt.Sprintf("%s/%s.mp4", aspect, baseName)` where
`baseName` base64url-encodes the 32 random bytes. -/
def objectKey (aspect : String) (randomBytes : List Nat) : String :=
  aspect ++ "/" ++ String.mk (base64RawURLEncode randomBytes) ++ ".mp4"

/-- The `database.Video` record as used by the handlers
(fields `ID`, `UserID`, `ThumbnailURL`, `VideoURL`); UUIDs are modelled
as strings and the nullable URL pointers as `Option`. -/
structure Video where
  id : String
  userID : String
  thumbnailURL : Option String
  videoURL : Option String
deriving DecidableEq

/-- Locator encoding of the video-upload variant in src/unnamed/part_002
line 362: `videoURL := fmt.Sprintf("%s,%s", cfg.s3Bucket, objectKey)`. -/
def encodeLocator (bucket key : String) : String :=
  bucket ++ "," ++ key

/-- Split at the first comma, as `strings.SplitN(s, ",", 2)` does:
`none` when the string holds no comma (one-element split), otherwise
the pieces before and after the first comma. -/
def splitFirstComma : List Char → Option (List Char × List Char)
  | [] => none
  | c :: rest =>
      if c = ',' then some ([], rest)
      else
        match splitFirstComma rest with
        | none => none
        | some (pre, post) => some (c :: pre, post)

/-- Locator decoding on the read path (src/unnamed/part_002 lines
407-414): `parts := strings.SplitN(*video.VideoURL, ",", 2)`, failing
when fewer than two parts result, else `(parts[0], parts[1])`. -/
def decodeLocator (s : String) : Option (String × String) :=
  match splitFirstComma s.data with
  | none => none
  | some (pre, post) => some (String.mk pre, String.mk post)

/-- `dbVideoToSignedVideo` (src/unnamed/part_002 lines 399-423).  The
presign collaborator (`generatePresignedURL`, an S3 network call) is an
oracle argument taking bucket, key and the expiry in minutes.  The Go
pair return `(database.Video, error)` is modelled as
`Video × Option String` with the second component the error message. -/
def dbVideoToSignedVideo (presign : String → String → Nat → Except String String)
    (video : Video) : Video × Option String :=
  match video.videoURL with
  | none => ({ video with videoURL := none }, none)
  | some u =>
      if u = "" then ({ video with videoURL := none }, none)
      else
        match decodeLocator u with
        | none => (video, some ("invalid video URL format: " ++ u))
        | some (bucket, key) =>
            match presign bucket key 15 with
            | Except.error e => (video, some e)
            | Except.ok url => ({ video with videoURL := some url }, none)

/-- Outcome of `cfg.db.GetVideo`: `sql.ErrNoRows` or another database
error. -/
inductive DBErr where
  | noRows
  | other
deriving DecidableEq

/-- Observable side effects of one handler run, in execution order.
`storeDelete` is never emitted by any handler in this repository; it is
present so that "no compensating delete is issued" is a statement about
the trace rather than vacuously true by construction. -/
inductive Effect where
  | dbGet (videoID : String)
  | fileCreated (path : String)
  | fileRemoved (path : String)
  | procProbe (path : String)
  | procFfmpeg (inputPath outputPath : String)
  | storePut (bucket key : String)
  | storeUpdate (videoID : String)
  | storeDelete (bucket key : String)
deriving DecidableEq

/-- The multipart file part returned by `r.FormFile`; `mediaType` is the
result of Go's `mime.ParseMediaType` on its Content-Type header
(`none` models a parse error), an external stdlib call. -/
structure FormFile where
  mediaType : Option String
deriving DecidableEq

/-- `1 << 30`, the byte ceiling installed with `http.MaxBytesReader`. -/
def maxUploadBytes : Nat := 2 ^ 30

/-- Oracle environment for one run of `handlerUploadVideo`: the request
data plus the outcome of every fallible external call, in the order the
handler makes them. -/
structure UploadEnv where
  s3Bucket : String
  s3Region : String
  parsedVideoID : Option String
  bearerToken : Option String
  jwtUserID : Option String
  dbVideo : Except DBErr Video
  reparseOk : Bool
  bodySize : Nat
  parseFormOk : Bool
  formFile : Option FormFile
  tempPath : Option String
  copyOk : Bool
  seekOk : Bool
  probeRunOk : Bool
  probeStreams : List StreamInfo
  ffmpegOk : Bool
  openProcessedOk : Bool
  seekProcessedOk : Bool
  randomOk : Bool
  randomBytes : List Nat
  putOk : Bool
  updateOk : Bool

/-- Result of one handler run: HTTP status, ordered effect trace,
whether the metadata store committed the new locator, and how many body
bytes the multipart parser buffered. -/
structure HandlerResult where
  status : Nat
  trace : List Effect
  committed : Bool
  bytesBuffered : Nat
deriving DecidableEq

/-- `handlerUploadVideo` (handler_upload_video.go lines 105-295),
step for step: path-parameter parse, bearer token, JWT validation,
`GetVideo`, re-parse of the user id, ownership check,
`ParseMultipartForm` (reads the body through the `MaxBytesReader`
ceiling), `FormFile`, media-type validation, temp-file staging, seek,
ffprobe, ffmpeg fast-start remux, random key derivation, S3 put and
`UpdateVideo`.  The two `defer os.Remove` calls are modelled by
appending the registered removals (processed file first, staging file
second, matching LIFO defer order) to every exit path's trace. -/
def handlerUploadVideo (env : UploadEnv) : HandlerResult :=
  match env.parsedVideoID with
  | none => ⟨400, [], false, 0⟩
  | some videoID =>
  match env.bearerToken with
  | none => ⟨401, [], false, 0⟩
  | some _ =>
  match env.jwtUserID with
  | none => ⟨401, [], false, 0⟩
  | some userID =>
  let t0 := [Effect.dbGet videoID]
  match env.dbVideo with
  | Except.error DBErr.noRows => ⟨404, t0, false, 0⟩
  | Except.error DBErr.other => ⟨500, t0, false, 0⟩
  | Except.ok video =>
  if ¬ env.reparseOk then ⟨401, t0, false, 0⟩
  else if video.userID ≠ userID then ⟨401, t0, false, 0⟩
  else if ¬ (env.bodySize ≤ maxUploadBytes ∧ env.parseFormOk) then
    ⟨400, t0, false, min env.bodySize maxUploadBytes⟩
  else
  let buffered := env.bodySize
  match env.formFile with
  | none => ⟨400, t0, false, buffered⟩
  | some file =>
  match file.mediaType with
  | none => ⟨400, t0, false, buffered⟩
  | some mediaType =>
  if mediaType ≠ "video/mp4" then ⟨415, t0, false, buffered⟩
  else
  match env.tempPath with
  | none => ⟨500, t0, false, buffered⟩
  | some tmp =>
  let t1 := t0 ++ [Effect.fileCreated tmp]
  let cleanupTmp := [Effect.fileRemoved tmp]
  if ¬ env.copyOk then ⟨500, t1 ++ cleanupTmp, false, buffered⟩
  else if ¬ env.seekOk then ⟨500, t1 ++ cleanupTmp, false, buffered⟩
  else
  let t2 := t1 ++ [Effect.procProbe tmp]
  if ¬ env.probeRunOk then ⟨500, t2 ++ cleanupTmp, false, buffered⟩
  else
  match getVideoAspectRatio env.probeStreams with
  | Except.error _ => ⟨500, t2 ++ cleanupTmp, false, buffered⟩
  | Except.ok aspect =>
  let outPath := processedOutputPath tmp
  let t3 := t2 ++ [Effect.procFfmpeg tmp outPath]
  if ¬ env.ffmpegOk then ⟨500, t3 ++ cleanupTmp, false, buffered⟩
  else
  let t4 := t3 ++ [Effect.fileCreated outPath]
  let cleanupBoth := [Effect.fileRemoved outPath, Effect.fileRemoved tmp]
  if ¬ env.openProcessedOk then ⟨500, t4 ++ cleanupBoth, false, buffered⟩
  else if ¬ env.seekProcessedOk then ⟨500, t4 ++ cleanupBoth, false, buffered⟩
  else if ¬ env.randomOk then ⟨500, t4 ++ cleanupBoth, false, buffered⟩
  else
  let key := objectKey aspect env.randomBytes
  let t5 := t4 ++ [Effect.storePut env.s3Bucket key]
  if ¬ env.putOk then ⟨500, t5 ++ cleanupBoth, false, buffered⟩
  else
  let t6 := t5 ++ [Effect.storeUpdate videoID]
  if ¬ env.updateOk then ⟨500, t6 ++ cleanupBoth, false, buffered⟩
  else ⟨200, t6 ++ cleanupBoth, true, buffered⟩

/-- Local files present after a trace: `fileCreated` adds a path,
`fileRemoved` removes every copy of it (`os.Remove` of an
already-removed path is a no-op failure with the error ignored by
`defer`), other effects touch no local file. -/
def applyEffect (files : List String) : Effect → List String
  | Effect.fileCreated p => files ++ [p]
  | Effect.fileRemoved p => files.filter (fun q => q ≠ p)
  | _ => files

/-- Files remaining on local disk after the whole trace ran. -/
def filesAfter (trace : List Effect) : List String :=
  trace.foldl applyEffect []

namespace Part001

/-- Oracle environment for the thumbnail-upload variant in
src/unnamed/part_001 (random base64url filename, JPEG/PNG only). -/
structure ThumbEnv where
  assetsRoot : String
  port : String
  parsedVideoID : Option String
  bearerToken : Option String
  jwtUserID : Option String
  parseFormOk : Bool
  formFile : Option FormFile
  randomOk : Bool
  randomBytes : List Nat
  createOk : Bool
  copyOk : Bool
  dbVideo : Except DBErr Video
  reparseOk : Bool
  updateOk : Bool

/-- `handlerUploadThumbnail` (src/unnamed/part_001 lines 18-139): the
destination file under `cfg.assetsRoot` is created and written BEFORE
`GetVideo` and the ownership comparison run, and no exit path removes
it (the only deferred calls are `Close`). -/
def handlerUploadThumbnail (env : ThumbEnv) : HandlerResult :=
  match env.parsedVideoID with
  | none => ⟨400, [], false, 0⟩
  | some videoID =>
  match env.bearerToken with
  | none => ⟨401, [], false, 0⟩
  | some _ =>
  match env.jwtUserID with
  | none => ⟨401, [], false, 0⟩
  | some userID =>
  if ¬ env.parseFormOk then ⟨400, [], false, 0⟩
  else
  match env.formFile with
  | none => ⟨400, [], false, 0⟩
  | some file =>
  match file.mediaType with
  | none => ⟨400, [], false, 0⟩
  | some mediaType =>
  if mediaType ≠ "image/jpeg" ∧ mediaType ≠ "image/png" then ⟨415, [], false, 0⟩
  else
  let ext := if mediaType = "image/jpeg" then ".jpg" else ".png"
  if ¬ env.randomOk then ⟨500, [], false, 0⟩
  else
  let filename := String.mk (base64RawURLEncode env.randomBytes) ++ ext
  let filePath := env.assetsRoot ++ "/" ++ filename
  if ¬ env.createOk then ⟨500, [], false, 0⟩
  else
  let t1 := [Effect.fileCreated filePath]
  if ¬ env.copyOk then ⟨500, t1, false, 0⟩
  else
  let t2 := t1 ++ [Effect.dbGet videoID]
  match env.dbVideo with
  | Except.error DBErr.noRows => ⟨404, t2, false, 0⟩
  | Except.error DBErr.other => ⟨500, t2, false, 0⟩
  | Except.ok video =>
  if ¬ env.reparseOk then ⟨401, t2, false, 0⟩
  else if video.userID ≠ userID then ⟨401, t2, false, 0⟩
  else
  let t3 := t2 ++ [Effect.storeUpdate videoID]
  if ¬ env.updateOk then ⟨500, t3, false, 0⟩
  else ⟨200, t3, true, 0⟩

end Part001

namespace Part000

/-- MIME-to-extension map `getExtensionFromMIME`
(src/unnamed/part_000 lines 115-128). -/
def getExtensionFromMIME (mimeType : String) : Except String String :=
  if mimeType = "image/jpeg" then Except.ok ".jpg"
  else if mimeType = "image/png" then Except.ok ".png"
  else if mimeType = "image/gif" then Except.ok ".gif"
  else if mimeType = "image/webp" then Except.ok ".webp"
  else Except.error ("unsupported MIME type: " ++ mimeType)

/-- Oracle environment for the thumbnail-upload variant in
src/unnamed/part_000 (filename derived from the video id, raw
Content-Type header used directly). -/
structure ThumbEnv where
  assetsRoot : String
  port : String
  parsedVideoID : Option String
  bearerToken : Option String
  jwtUserID : Option String
  parseFormOk : Bool
  formContentType : Option String
  createOk : Bool
  copyOk : Bool
  dbVideo : Except DBErr Video
  reparseOk : Bool
  updateOk : Bool

/-- `handlerUploadThumbnail` (src/unnamed/part_000 lines 15-112):
like the part_001 variant, the destination file is created and written
before `GetVideo` and the ownership check, and never removed. -/
def handlerUploadThumbnail (env : ThumbEnv) : HandlerResult :=
  match env.parsedVideoID with
  | none => ⟨400, [], false, 0⟩
  | some videoID =>
  match env.bearerToken with
  | none => ⟨401, [], false, 0⟩
  | some _ =>
  match env.jwtUserID with
  | none => ⟨401, [], false, 0⟩
  | some userID =>
  if ¬ env.parseFormOk then ⟨400, [], false, 0⟩
  else
  match env.formContentType with
  | none => ⟨400, [], false, 0⟩
  | some mediaType =>
  match getExtensionFromMIME mediaType with
  | Except.error _ => ⟨415, [], false, 0⟩
  | Except.ok ext =>
  let filename := videoID ++ ext
  let filePath := env.assetsRoot ++ "/" ++ filename
  if ¬ env.createOk then ⟨500, [], false, 0⟩
  else
  let t1 := [Effect.fileCreated filePath]
  if ¬ env.copyOk then ⟨500, t1, false, 0⟩
  else
  let t2 := t1 ++ [Effect.dbGet videoID]
  match env.dbVideo with
  | Except.error DBErr.noRows => ⟨404, t2, false, 0⟩
  | Except.error DBErr.other => ⟨500, t2, false, 0⟩
  | Except.ok video =>
  if ¬ env.reparseOk then ⟨401, t2, false, 0⟩
  else if video.userID ≠ userID then ⟨401, t2, false, 0⟩
  else
  let t3 := t2 ++ [Effect.storeUpdate videoID]
  if ¬ env.updateOk then ⟨500, t3, false, 0⟩
  else ⟨200, t3, true, 0⟩

end Part000

/-- The Go selection loop computes the dimensions of the first stream
whose `codec_type` is `"video"`, or the zero values when there is none. -/
theorem findFirstVideoLoop_eq_find (streams : List StreamInfo) :
    findFirstVideoLoop streams =
      match streams.find? (fun s => s.codecType == "video") with
      | none => (0, 0)
      | some s => (s.width, s.height) := by
  induction streams with
  | nil => rfl
  | cons s rest ih =>
      by_cases h : s.codecType = "video" <;>
        simp [findFirstVideoLoop, List.find?_cons, h, ih]

/-- Claim C3: for positive geometry, classification is landscape exactly
inside the 5% band around 16/9 (tested first), portrait exactly outside
that band and inside the 5% band around 9/16, and other in the remaining
cases; concretely 1920x1080 is landscape, 1080x1920 portrait and
1000x1000 other. -/
theorem aspect_classification_bands :
    (∀ w h : Int, 0 < w → 0 < h →
      ((classifyAspect w h = "landscape" ↔
          |(w : ℚ) / (h : ℚ) - 16 / 9| ≤ 16 / 9 * (5 / 100)) ∧
       (classifyAspect w h = "portrait" ↔
          ¬ |(w : ℚ) / (h : ℚ) - 16 / 9| ≤ 16 / 9 * (5 / 100) ∧
            |(w : ℚ) / (h : ℚ) - 9 / 16| ≤ 9 / 16 * (5 / 100)) ∧
       (classifyAspect w h = "other" ↔
          ¬ |(w : ℚ) / (h : ℚ) - 16 / 9| ≤ 16 / 9 * (5 / 100) ∧
          ¬ |(w : ℚ) / (h : ℚ) - 9 / 16| ≤ 9 / 16 * (5 / 100))))
    ∧ classifyAspect 1920 1080 = "landscape"
    ∧ classifyAspect 1080 1920 = "portrait"
    ∧ classifyAspect 1000 1000 = "other" := by
  refine ⟨fun w h _ _ => ?_, ?_, ?_, ?_⟩
  · simp only [classifyAspect]
    split_ifs with h1 h2 <;>
      refine ⟨?_, ?_, ?_⟩ <;> simp_all
  · simp only [classifyAspect, abs_le]; norm_num
  · simp only [classifyAspect, abs_le]; norm_num
  · simp only [classifyAspect, abs_le]; norm_num

/-- Witness for the banded classification at geometry 1920x1080. -/
theorem aspect_classification_bands_witness :
    (0 : Int) < 1920 ∧ (0 : Int) < 1080 ∧
    (classifyAspect 1920 1080 = "landscape" ↔
      |(1920 : ℚ) / (1080 : ℚ) - 16 / 9| ≤ 16 / 9 * (5 / 100)) :=
  ⟨by decide, by decide,
    (aspect_classification_bands.1 1920 1080 (by decide) (by decide)).1⟩

/-- Claim C4 counterexample: a parsed stream list whose first video
stream has width 0 but whose second video stream is a healthy 1920x1080
makes the prober fail with the no-video-stream error, although a stream
with both dimensions positive is present — so "fails exactly when no
stream in the list has both width>0 and height>0" is false. -/
theorem probe_failure_condition_counterexample :
    (∃ s ∈ [(⟨"video", 0, 100⟩ : StreamInfo), ⟨"video", 1920, 1080⟩],
        0 < s.width ∧ 0 < s.height) ∧
    getVideoAspectRatio [⟨"video", 0, 100⟩, ⟨"video", 1920, 1080⟩]
      = Except.error "no video stream found" := by
  constructor
  · exact ⟨⟨"video", 1920, 1080⟩, by simp, by decide⟩
  · rfl

/-- Claim C4 (amended): the prober selects the first stream whose type
is "video", ignoring all others, and fails with the no-video-stream
error exactly when there is no such stream or the first such stream has
width = 0 or height = 0. -/
theorem probe_first_video_stream_decides (streams : List StreamInfo) :
    (getVideoAspectRatio streams = Except.error "no video stream found" ↔
      (streams.find? (fun s => s.codecType == "video") = none ∨
       ∃ s, streams.find? (fun s => s.codecType == "video") = some s ∧
         (s.width = 0 ∨ s.height = 0))) ∧
    (∀ s, streams.find? (fun s => s.codecType == "video") = some s →
      s.width ≠ 0 → s.height ≠ 0 →
      getVideoAspectRatio streams = Except.ok (classifyAspect s.width s.height)) := by
  have hloop := findFirstVideoLoop_eq_find streams
  constructor
  · cases hfind : streams.find? (fun s => s.codecType == "video") with
    | none => simp [getVideoAspectRatio, hloop, hfind]
    | some s =>
        simp only [getVideoAspectRatio, hloop, hfind]
        split_ifs with hz <;> simp_all
  · intro s hfind hw hh
    simp [getVideoAspectRatio, hloop, hfind, hw, hh]

/-- Witness for the amended probe condition: an audio stream followed by
a 1920x1080 video stream probes successfully. -/
theorem probe_first_video_stream_decides_witness :
    getVideoAspectRatio [(⟨"audio", 0, 0⟩ : StreamInfo), ⟨"video", 1920, 1080⟩]
      = Except.ok (classifyAspect 1920 1080) :=
  (probe_first_video_stream_decides _).2 ⟨"video", 1920, 1080⟩ (by decide)
    (by decide) (by decide)

/-- Splitting at the first comma after appending a comma-free chunk,
a comma and a tail recovers the chunk and the tail. -/
theorem splitFirstComma_append (pre post : List Char) (h : ',' ∉ pre) :
    splitFirstComma (pre ++ ',' :: post) = some (pre, post) := by
  induction pre with
  | nil => simp [splitFirstComma]
  | cons c cs ih =>
      have hc : ¬ c = ',' := by
        intro hc; exact h (by simp [hc])
      have hcs : ',' ∉ cs := fun hm => h (List.mem_cons_of_mem _ hm)
      simp [splitFirstComma, hc, ih hcs]

/-- Claim C6 counterexample: a bucket name containing a comma does not
round-trip through the comma-separated locator encoding — the decoder
splits at the first comma and returns a different pair. -/
theorem locator_roundtrip_counterexample :
    decodeLocator (encodeLocator "a,b" "k") ≠ some ("a,b", "k") ∧
    decodeLocator (encodeLocator "a,b" "k") = some ("a", "b,k") := by
  constructor <;> decide

/-- Claim C6 (amended): for every bucket string that contains no comma
and every key string, the comma-separated locator encoding round-trips
exactly through the read-path decoder. -/
theorem locator_roundtrip_commafree (bucket key : String)
    (h : ',' ∉ bucket.data) :
    decodeLocator (encodeLocator bucket key) = some (bucket, key) := by
  unfold encodeLocator decodeLocator
  have hdata : (bucket ++ "," ++ key).data = bucket.data ++ ',' :: key.data := by
    simp [String.data_append]
  rw [hdata, splitFirstComma_append _ _ h]

/-- Witness for the comma-free locator round trip. -/
theorem locator_roundtrip_commafree_witness :
    decodeLocator (encodeLocator "tubely-bucket" "landscape/x.mp4")
      = some ("tubely-bucket", "landscape/x.mp4") :=
  locator_roundtrip_commafree "tubely-bucket" "landscape/x.mp4" (by decide)

/-- The alphabet lookup is a bijection below 64. -/
theorem sextet_b64urlChar : ∀ n, n < 64 → sextet (b64urlChar n) = n := by decide

/-- Unpadded base64url output length: four characters per three input
bytes, rounded the RFC 4648 way. -/
theorem base64RawURLEncode_length : ∀ bs : List Nat,
    (base64RawURLEncode bs).length = (bs.length * 4 + 2) / 3
  | [] => rfl
  | [_] => by simp [base64RawURLEncode]
  | [_, _] => by simp [base64RawURLEncode]
  | _ :: _ :: _ :: rest => by
      simp only [base64RawURLEncode, List.length_cons]
      rw [base64RawURLEncode_length rest]
      omega

/-- The decoder is a left inverse of the encoder on byte lists. -/
theorem base64RawURLDecode_encode : ∀ bs : List Nat, (∀ x ∈ bs, x < 256) →
    base64RawURLDecode (base64RawURLEncode bs) = bs
  | [], _ => rfl
  | [a], h => by
      have ha : a < 256 := h a (by simp)
      simp only [base64RawURLEncode, base64RawURLDecode]
      rw [sextet_b64urlChar (a / 4) (by omega),
        sextet_b64urlChar (a % 4 * 16) (by omega)]
      have : a / 4 * 4 + a % 4 * 16 / 16 = a := by omega
      rw [this]
  | [a, b], h => by
      have ha : a < 256 := h a (by simp)
      have hb : b < 256 := h b (by simp)
      simp only [base64RawURLEncode, base64RawURLDecode]
      rw [sextet_b64urlChar (a / 4) (by omega),
        sextet_b64urlChar (a % 4 * 16 + b / 16) (by omega),
        sextet_b64urlChar (b % 16 * 4) (by omega)]
      have e1 : a / 4 * 4 + (a % 4 * 16 + b / 16) / 16 = a := by omega
      have e2 : (a % 4 * 16 + b / 16) % 16 * 16 + b % 16 * 4 / 4 = b := by omega
      rw [e1, e2]
  | a :: b :: c :: rest, h => by
      have ha : a < 256 := h a (by simp)
      have hb : b < 256 := h b (by simp)
      have hc : c < 256 := h c (by simp)
      have hrest : ∀ x ∈ rest, x < 256 := fun x hx => h x (by simp [hx])
      simp only [base64RawURLEncode, base64RawURLDecode]
      rw [sextet_b64urlChar (a / 4) (by omega),
        sextet_b64urlChar (a % 4 * 16 + b / 16) (by omega),
        sextet_b64urlChar (b % 16 * 4 + c / 64) (by omega),
        sextet_b64urlChar (c % 64) (by omega)]
      have e1 : a / 4 * 4 + (a % 4 * 16 + b / 16) / 16 = a := by omega
      have e2 : (a % 4 * 16 + b / 16) % 16 * 16 + (b % 16 * 4 + c / 64) / 4 = b := by
        omega
      have e3 : (b % 16 * 4 + c / 64) % 4 * 64 + c % 64 = c := by omega
      rw [e1, e2, e3, base64RawURLDecode_encode rest hrest]

/-- The encoder is injective on byte lists. -/
theorem base64RawURLEncode_injOn (b1 b2 : List Nat)
    (h1 : ∀ x ∈ b1, x < 256) (h2 : ∀ x ∈ b2, x < 256)
    (he : base64RawURLEncode b1 = base64RawURLEncode b2) : b1 = b2 := by
  rw [← base64RawURLDecode_encode b1 h1, ← base64RawURLDecode_encode b2 h2, he]

/-- Claim C5: for 32 input bytes the derived object key is
`aspect ++ "/" ++ encoded ++ ".mp4"` with an encoded segment of one of
the documented lengths (it is always 43 characters for 32 bytes), and
two invocations that draw distinct random bytes derive distinct keys. -/
theorem object_key_format_and_injective (aspect : String) (b1 b2 : List Nat)
    (hlen1 : b1.length = 32) (hb1 : ∀ x ∈ b1, x < 256)
    (hlen2 : b2.length = 32) (hb2 : ∀ x ∈ b2, x < 256) :
    (∃ enc : List Char,
        objectKey aspect b1 = aspect ++ "/" ++ String.mk enc ++ ".mp4" ∧
        (enc.length = 22 ∨ enc.length = 43)) ∧
    (b1 ≠ b2 → objectKey aspect b1 ≠ objectKey aspect b2) := by
  have hl1 : (base64RawURLEncode b1).length = 43 := by
    rw [base64RawURLEncode_length, hlen1]
  have hl2 : (base64RawURLEncode b2).length = 43 := by
    rw [base64RawURLEncode_length, hlen2]
  constructor
  · exact ⟨base64RawURLEncode b1, rfl, Or.inr hl1⟩
  · intro hne heq
    apply hne
    apply base64RawURLEncode_injOn b1 b2 hb1 hb2
    have hdata := congrArg String.data heq
    simp only [objectKey, String.data_append, List.append_assoc] at hdata
    exact List.append_cancel_right
      (List.append_cancel_left (List.append_cancel_left hdata))

/-- Witness for the object-key properties at two concrete byte draws. -/
theorem object_key_format_and_injective_witness :
    (List.replicate 32 0).length = 32 ∧
    objectKey "landscape" (List.replicate 32 0)
      ≠ objectKey "landscape" (1 :: List.replicate 31 0) :=
  ⟨by decide,
    (object_key_format_and_injective "landscape" (List.replicate 32 0)
      (1 :: List.replicate 31 0) (by decide) (by decide) (by decide)
      (by decide)).2 (by decide)⟩

/-- A presign oracle that is never consulted on the paths under test. -/
def presignUnused : String → String → Nat → Except String String :=
  fun _ _ _ => Except.error "unused"

/-- Claim C7 counterexample: a record whose locator is the empty string
is NOT returned unchanged — the signing step clears the locator to
absent (it does return without error). -/
theorem signing_empty_locator_counterexample :
    ((dbVideoToSignedVideo presignUnused ⟨"v1", "alice", none, some ""⟩).2 = none) ∧
    (dbVideoToSignedVideo presignUnused ⟨"v1", "alice", none, some ""⟩).1
      ≠ ⟨"v1", "alice", none, some ""⟩ := by
  constructor <;> decide

/-- Claim C7 (amended): for every record whose locator is absent or
empty, the signing step returns the record with the locator normalized
to absent, all other fields unchanged, and no error — a video with no
uploaded media is a valid state, not a failure. -/
theorem signing_absent_or_empty_locator
    (presign : String → String → Nat → Except String String) (video : Video)
    (h : video.videoURL = none ∨ video.videoURL = some "") :
    dbVideoToSignedVideo presign video
      = ({ video with videoURL := none }, none) := by
  rcases h with h | h <;> simp [dbVideoToSignedVideo, h]

/-- Witness for the absent-locator signing behaviour. -/
theorem signing_absent_or_empty_locator_witness :
    dbVideoToSignedVideo presignUnused ⟨"v1", "alice", none, none⟩
      = (⟨"v1", "alice", none, none⟩, none) :=
  signing_absent_or_empty_locator presignUnused ⟨"v1", "alice", none, none⟩
    (Or.inl rfl)

/-- Claim C1: a video upload request whose authenticated principal does
not match the owner on the loaded record stops with 401 having
performed only the record read — no temporary file, no external
process, no object-store put, no metadata update. -/
theorem ownership_mismatch_fails_closed
    (env : UploadEnv) (vid tok uid : String) (video : Video)
    (hvid : env.parsedVideoID = some vid)
    (htok : env.bearerToken = some tok)
    (hjwt : env.jwtUserID = some uid)
    (hdb : env.dbVideo = Except.ok video)
    (hrep : env.reparseOk = true)
    (hown : video.userID ≠ uid) :
    handlerUploadVideo env = ⟨401, [Effect.dbGet vid], false, 0⟩ ∧
    (∀ p, Effect.fileCreated p ∉ (handlerUploadVideo env).trace) ∧
    (∀ p, Effect.procProbe p ∉ (handlerUploadVideo env).trace) ∧
    (∀ p q, Effect.procFfmpeg p q ∉ (handlerUploadVideo env).trace) ∧
    (∀ b k, Effect.storePut b k ∉ (handlerUploadVideo env).trace) ∧
    (∀ v, Effect.storeUpdate v ∉ (handlerUploadVideo env).trace) := by
  have hres : handlerUploadVideo env = ⟨401, [Effect.dbGet vid], false, 0⟩ := by
    simp [handlerUploadVideo, hvid, htok, hjwt, hdb, hrep, hown]
  refine ⟨hres, ?_, ?_, ?_, ?_, ?_⟩ <;> simp [hres]

/-- Witness for the fail-closed ownership check. -/
theorem ownership_mismatch_fails_closed_witness :
    handlerUploadVideo
      { s3Bucket := "bkt", s3Region := "reg", parsedVideoID := some "v1",
        bearerToken := some "tok", jwtUserID := some "mallory",
        dbVideo := Except.ok ⟨"v1", "alice", none, none⟩, reparseOk := true,
        bodySize := 100, parseFormOk := true,
        formFile := some ⟨some "video/mp4"⟩, tempPath := some "/tmp/up.mp4",
        copyOk := true, seekOk := true, probeRunOk := true,
        probeStreams := [⟨"video", 1920, 1080⟩], ffmpegOk := true,
        openProcessedOk := true, seekProcessedOk := true, randomOk := true,
        randomBytes := List.replicate 32 0, putOk := true, updateOk := true }
      = ⟨401, [Effect.dbGet "v1"], false, 0⟩ :=
  (ownership_mismatch_fails_closed _ "v1" "tok" "mallory"
    ⟨"v1", "alice", none, none⟩ rfl rfl rfl rfl rfl (by decide)).1

/-- Suffixing `".processing"` always changes the path, so the staged
and the remuxed file never collide. -/
theorem ne_processedOutputPath (p : String) : p ≠ processedOutputPath p := by
  intro h
  have hlen := congrArg String.length h
  simp [processedOutputPath, String.length_append] at hlen
  exact absurd hlen (by decide)

/-- Claim C2: on every terminal outcome of the upload pipeline — the
success path and every failure path — no file created by the request
survives the trace; both deferred removals run and removal of an
already-absent file is harmless. -/
theorem cleanup_no_temp_files_remain (env : UploadEnv) :
    filesAfter (handlerUploadVideo env).trace = [] := by
  obtain ⟨bucket, region, pvid, tok, jwt, dbv, rep, bsz, pform, ffile, tpath,
    cOk, sOk, prOk, streams, fOk, oOk, spOk, rOk, rb, puOk, upOk⟩ := env
  cases pvid with
  | none => rfl
  | some vid =>
  cases tok with
  | none => rfl
  | some t =>
  cases jwt with
  | none => rfl
  | some uid =>
  cases dbv with
  | error e => cases e <;> rfl
  | ok video =>
  cases rep with
  | false => rfl
  | true =>
  by_cases hown : video.userID = uid
  case neg => simp [handlerUploadVideo, hown, filesAfter, applyEffect]
  case pos =>
  by_cases hsz : bsz ≤ maxUploadBytes
  case neg => simp [handlerUploadVideo, hown, hsz, filesAfter, applyEffect]
  case pos =>
  cases pform with
  | false => simp [handlerUploadVideo, hown, hsz, filesAfter, applyEffect]
  | true =>
  cases ffile with
  | none => simp [handlerUploadVideo, hown, hsz, filesAfter, applyEffect]
  | some file =>
  obtain ⟨mt⟩ := file
  cases mt with
  | none => simp [handlerUploadVideo, hown, hsz, filesAfter, applyEffect]
  | some mediaType =>
  by_cases hmt : mediaType = "video/mp4"
  case neg => simp [handlerUploadVideo, hown, hsz, hmt, filesAfter, applyEffect]
  case pos =>
  cases tpath with
  | none => simp [handlerUploadVideo, hown, hsz, hmt, filesAfter, applyEffect]
  | some tmp =>
  have htmp := ne_processedOutputPath tmp
  cases cOk with
  | false => simp [handlerUploadVideo, hown, hsz, hmt, filesAfter, applyEffect]
  | true =>
  cases sOk with
  | false => simp [handlerUploadVideo, hown, hsz, hmt, filesAfter, applyEffect]
  | true =>
  cases prOk with
  | false => simp [handlerUploadVideo, hown, hsz, hmt, filesAfter, applyEffect]
  | true =>
  cases hasp : getVideoAspectRatio streams with
  | error e =>
      simp [handlerUploadVideo, hown, hsz, hmt, hasp, filesAfter, applyEffect]
  | ok aspect =>
  cases fOk with
  | false =>
      simp [handlerUploadVideo, hown, hsz, hmt, hasp, filesAfter, applyEffect]
  | true =>
  cases oOk with
  | false =>
      simp [handlerUploadVideo, hown, hsz, hmt, hasp, htmp, filesAfter,
        applyEffect]
  | true =>
  cases spOk with
  | false =>
      simp [handlerUploadVideo, hown, hsz, hmt, hasp, htmp, filesAfter,
        applyEffect]
  | true =>
  cases rOk with
  | false =>
      simp [handlerUploadVideo, hown, hsz, hmt, hasp, htmp, filesAfter,
        applyEffect]
  | true =>
  cases puOk with
  | false =>
      simp [handlerUploadVideo, hown, hsz, hmt, hasp, htmp, filesAfter,
        applyEffect]
  | true =>
  cases upOk with
  | false =>
      simp [handlerUploadVideo, hown, hsz, hmt, hasp, htmp, filesAfter,
        applyEffect]
  | true =>
      simp [handlerUploadVideo, hown, hsz, hmt, hasp, htmp, filesAfter,
        applyEffect]

/-- Claim C8: a body larger than the 1 GiB ceiling is rejected with a
4xx status at the multipart-parse step, before the staging temp file
exists, with strictly fewer bytes buffered than the body holds and with
no object-store or metadata-store effect. -/
theorem oversized_body_rejected_before_buffering
    (env : UploadEnv) (vid tok uid : String) (video : Video)
    (hvid : env.parsedVideoID = some vid)
    (htok : env.bearerToken = some tok)
    (hjwt : env.jwtUserID = some uid)
    (hdb : env.dbVideo = Except.ok video)
    (hrep : env.reparseOk = true)
    (hown : video.userID = uid)
    (hsize : maxUploadBytes < env.bodySize) :
    handlerUploadVideo env = ⟨400, [Effect.dbGet vid], false, maxUploadBytes⟩ ∧
    (handlerUploadVideo env).bytesBuffered < env.bodySize ∧
    (∀ p, Effect.fileCreated p ∉ (handlerUploadVideo env).trace) ∧
    (∀ b k, Effect.storePut b k ∉ (handlerUploadVideo env).trace) ∧
    (∀ v, Effect.storeUpdate v ∉ (handlerUploadVideo env).trace) := by
  have hnle : ¬ env.bodySize ≤ maxUploadBytes := Nat.not_le.mpr hsize
  have hmin : min env.bodySize maxUploadBytes = maxUploadBytes :=
    Nat.min_eq_right (Nat.le_of_lt hsize)
  have hres : handlerUploadVideo env
      = ⟨400, [Effect.dbGet vid], false, maxUploadBytes⟩ := by
    simp [handlerUploadVideo, hvid, htok, hjwt, hdb, hrep, hown, hnle, hmin]
  refine ⟨hres, ?_, ?_, ?_, ?_⟩ <;> simp [hres, hsize]

/-- Witness for the oversized-body rejection at a 2^30 + 1 byte body. -/
theorem oversized_body_rejected_before_buffering_witness :
    handlerUploadVideo
      { s3Bucket := "bkt", s3Region := "reg", parsedVideoID := some "v1",
        bearerToken := some "tok", jwtUserID := some "alice",
        dbVideo := Except.ok ⟨"v1", "alice", none, none⟩, reparseOk := true,
        bodySize := 2 ^ 30 + 1, parseFormOk := true,
        formFile := some ⟨some "video/mp4"⟩, tempPath := some "/tmp/up.mp4",
        copyOk := true, seekOk := true, probeRunOk := true,
        probeStreams := [⟨"video", 1920, 1080⟩], ffmpegOk := true,
        openProcessedOk := true, seekProcessedOk := true, randomOk := true,
        randomBytes := List.replicate 32 0, putOk := true, updateOk := true }
      = ⟨400, [Effect.dbGet "v1"], false, maxUploadBytes⟩ :=
  (oversized_body_rejected_before_buffering _ "v1" "tok" "alice"
    ⟨"v1", "alice", none, none⟩ rfl rfl rfl rfl rfl rfl (by decide)).1

/-- Claim C9: when the S3 put succeeds and the subsequent metadata
update fails, the pipeline ends with a 5xx response, the put remains in
the trace with no compensating delete anywhere (the uploaded object is
orphaned), and nothing was committed to the metadata store. -/
theorem metadata_failure_orphans_object
    (env : UploadEnv) (vid tok uid aspect tmp : String) (video : Video)
    (file : FormFile)
    (hvid : env.parsedVideoID = some vid)
    (htok : env.bearerToken = some tok)
    (hjwt : env.jwtUserID = some uid)
    (hdb : env.dbVideo = Except.ok video)
    (hrep : env.reparseOk = true)
    (hown : video.userID = uid)
    (hsize : env.bodySize ≤ maxUploadBytes)
    (hform : env.parseFormOk = true)
    (hfile : env.formFile = some file)
    (hmt : file.mediaType = some "video/mp4")
    (htmp : env.tempPath = some tmp)
    (hcopy : env.copyOk = true)
    (hseek : env.seekOk = true)
    (hprobe : env.probeRunOk = true)
    (haspect : getVideoAspectRatio env.probeStreams = Except.ok aspect)
    (hffmpeg : env.ffmpegOk = true)
    (hopen : env.openProcessedOk = true)
    (hseek2 : env.seekProcessedOk = true)
    (hrand : env.randomOk = true)
    (hput : env.putOk = true)
    (hupd : env.updateOk = false) :
    (handlerUploadVideo env).status = 500 ∧
    Effect.storePut env.s3Bucket (objectKey aspect env.randomBytes)
      ∈ (handlerUploadVideo env).trace ∧
    (∀ b k, Effect.storeDelete b k ∉ (handlerUploadVideo env).trace) ∧
    (handlerUploadVideo env).committed = false := by
  refine ⟨?_, ?_, ?_, ?_⟩ <;>
    simp [handlerUploadVideo, hvid, htok, hjwt, hdb, hrep, hown, hsize, hform,
      hfile, hmt, htmp, hcopy, hseek, hprobe, haspect, hffmpeg, hopen, hseek2,
      hrand, hput, hupd]

/-- A concrete environment whose S3 put succeeds and whose metadata
update fails. -/
def envMetadataFail : UploadEnv :=
  { s3Bucket := "bkt", s3Region := "reg", parsedVideoID := some "v1",
    bearerToken := some "tok", jwtUserID := some "alice",
    dbVideo := Except.ok ⟨"v1", "alice", none, none⟩, reparseOk := true,
    bodySize := 100, parseFormOk := true,
    formFile := some ⟨some "video/mp4"⟩, tempPath := some "/tmp/up.mp4",
    copyOk := true, seekOk := true, probeRunOk := true,
    probeStreams := [⟨"video", 1920, 1080⟩], ffmpegOk := true,
    openProcessedOk := true, seekProcessedOk := true, randomOk := true,
    randomBytes := List.replicate 32 0, putOk := true, updateOk := false }

/-- Witness for the orphaned-object outcome at a concrete environment
whose S3 put succeeds and whose metadata update fails. -/
theorem metadata_failure_orphans_object_witness :
    (handlerUploadVideo envMetadataFail).status = 500 ∧
    Effect.storePut "bkt"
        (objectKey (classifyAspect 1920 1080) (List.replicate 32 0))
      ∈ (handlerUploadVideo envMetadataFail).trace ∧
    (handlerUploadVideo envMetadataFail).committed = false :=
  have h := metadata_failure_orphans_object envMetadataFail "v1" "tok" "alice"
    (classifyAspect 1920 1080) "/tmp/up.mp4" ⟨"v1", "alice", none, none⟩
    ⟨some "video/mp4"⟩ rfl rfl rfl rfl rfl rfl (by decide) rfl rfl rfl rfl
    rfl rfl rfl rfl rfl rfl rfl rfl rfl rfl
  ⟨h.1, h.2.1, h.2.2.2⟩

/-- Claim C10: in both file-writing thumbnail-upload variants, a
request carrying a valid token and an accepted image content type has
its destination file created and fully written into the assets
directory before the video record is loaded and ownership is verified,
so a non-owner request still ends 401 with the written file left on
disk and no record committed. -/
theorem thumbnail_write_before_ownership :
    (∀ (env : Part001.ThumbEnv) (vid tok uid mt : String) (video : Video)
      (file : FormFile),
      env.parsedVideoID = some vid →
      env.bearerToken = some tok →
      env.jwtUserID = some uid →
      env.parseFormOk = true →
      env.formFile = some file →
      file.mediaType = some mt →
      (mt = "image/jpeg" ∨ mt = "image/png") →
      env.randomOk = true →
      env.createOk = true →
      env.copyOk = true →
      env.dbVideo = Except.ok video →
      env.reparseOk = true →
      video.userID ≠ uid →
      ∃ p, (Part001.handlerUploadThumbnail env).status = 401 ∧
        (Part001.handlerUploadThumbnail env).trace
          = [Effect.fileCreated p, Effect.dbGet vid] ∧
        filesAfter (Part001.handlerUploadThumbnail env).trace = [p] ∧
        (Part001.handlerUploadThumbnail env).committed = false) ∧
    (∀ (env : Part000.ThumbEnv) (vid tok uid ct ext : String) (video : Video),
      env.parsedVideoID = some vid →
      env.bearerToken = some tok →
      env.jwtUserID = some uid →
      env.parseFormOk = true →
      env.formContentType = some ct →
      Part000.getExtensionFromMIME ct = Except.ok ext →
      env.createOk = true →
      env.copyOk = true →
      env.dbVideo = Except.ok video →
      env.reparseOk = true →
      video.userID ≠ uid →
      ∃ p, (Part000.handlerUploadThumbnail env).status = 401 ∧
        (Part000.handlerUploadThumbnail env).trace
          = [Effect.fileCreated p, Effect.dbGet vid] ∧
        filesAfter (Part000.handlerUploadThumbnail env).trace = [p] ∧
        (Part000.handlerUploadThumbnail env).committed = false) := by
  constructor
  · intro env vid tok uid mt video file hvid htok hjwt hform hfile hmt hok
      hrand hcreate hcopy hdb hrep hown
    rcases hok with rfl | rfl
    · have hres : Part001.handlerUploadThumbnail env = ⟨401,
          [Effect.fileCreated (env.assetsRoot ++ "/"
            ++ (String.mk (base64RawURLEncode env.randomBytes) ++ ".jpg")),
           Effect.dbGet vid], false, 0⟩ := by
        simp [Part001.handlerUploadThumbnail, hvid, htok, hjwt, hform, hfile,
          hmt, hrand, hcreate, hcopy, hdb, hrep, hown]
      refine ⟨env.assetsRoot ++ "/"
          ++ (String.mk (base64RawURLEncode env.randomBytes) ++ ".jpg"),
        ?_, ?_, ?_, ?_⟩ <;> simp [hres, filesAfter, applyEffect]
    · have hres : Part001.handlerUploadThumbnail env = ⟨401,
          [Effect.fileCreated (env.assetsRoot ++ "/"
            ++ (String.mk (base64RawURLEncode env.randomBytes) ++ ".png")),
           Effect.dbGet vid], false, 0⟩ := by
        simp [Part001.handlerUploadThumbnail, hvid, htok, hjwt, hform, hfile,
          hmt, hrand, hcreate, hcopy, hdb, hrep, hown]
      refine ⟨env.assetsRoot ++ "/"
          ++ (String.mk (base64RawURLEncode env.randomBytes) ++ ".png"),
        ?_, ?_, ?_, ?_⟩ <;> simp [hres, filesAfter, applyEffect]
  · intro env vid tok uid ct ext video hvid htok hjwt hform hct hext hcreate
      hcopy hdb hrep hown
    have hres : Part000.handlerUploadThumbnail env = ⟨401,
        [Effect.fileCreated (env.assetsRoot ++ "/" ++ (vid ++ ext)),
         Effect.dbGet vid], false, 0⟩ := by
      simp [Part000.handlerUploadThumbnail, hvid, htok, hjwt, hform, hct,
        hext, hcreate, hcopy, hdb, hrep, hown]
    refine ⟨env.assetsRoot ++ "/" ++ (vid ++ ext), ?_, ?_, ?_, ?_⟩ <;>
      simp [hres, filesAfter, applyEffect]

/-- Concrete non-owner request for the part_001 thumbnail variant. -/
def envThumbRandom : Part001.ThumbEnv :=
  { assetsRoot := "assets", port := "8080", parsedVideoID := some "v1",
    bearerToken := some "tok", jwtUserID := some "mallory",
    parseFormOk := true, formFile := some ⟨some "image/png"⟩,
    randomOk := true, randomBytes := List.replicate 32 0, createOk := true,
    copyOk := true, dbVideo := Except.ok ⟨"v1", "alice", none, none⟩,
    reparseOk := true, updateOk := true }

/-- Concrete non-owner request for the part_000 thumbnail variant. -/
def envThumbFlat : Part000.ThumbEnv :=
  { assetsRoot := "assets", port := "8080", parsedVideoID := some "v1",
    bearerToken := some "tok", jwtUserID := some "mallory",
    parseFormOk := true, formContentType := some "image/gif",
    createOk := true, copyOk := true,
    dbVideo := Except.ok ⟨"v1", "alice", none, none⟩,
    reparseOk := true, updateOk := true }

/-- Witness: both thumbnail variants leave the written file on disk for
a concrete non-owner request. -/
theorem thumbnail_write_before_ownership_witness :
    (∃ p, (Part001.handlerUploadThumbnail envThumbRandom).status = 401 ∧
      (Part001.handlerUploadThumbnail envThumbRandom).trace
        = [Effect.fileCreated p, Effect.dbGet "v1"] ∧
      filesAfter (Part001.handlerUploadThumbnail envThumbRandom).trace = [p] ∧
      (Part001.handlerUploadThumbnail envThumbRandom).committed = false) ∧
    (∃ p, (Part000.handlerUploadThumbnail envThumbFlat).status = 401 ∧
      (Part000.handlerUploadThumbnail envThumbFlat).trace
        = [Effect.fileCreated p, Effect.dbGet "v1"] ∧
      filesAfter (Part000.handlerUploadThumbnail envThumbFlat).trace = [p] ∧
      (Part000.handlerUploadThumbnail envThumbFlat).committed = false) :=
  ⟨thumbnail_write_before_ownership.1 envThumbRandom "v1" "tok" "mallory"
      "image/png" ⟨"v1", "alice", none, none⟩ ⟨some "image/png"⟩
      rfl rfl rfl rfl rfl rfl (Or.inr rfl) rfl rfl rfl rfl rfl (by decide),
    thumbnail_write_before_ownership.2 envThumbFlat "v1" "tok" "mallory"
      "image/gif" ".gif" ⟨"v1", "alice", none, none⟩
      rfl rfl rfl rfl rfl rfl rfl rfl rfl rfl (by decide)⟩
